import Mathlib

/-
  Verification of the Ingenic XBurst SMP bring-up and cache-maintenance code
  (arch/mips/mm/c-ingenic.c, arch/mips/jz4740/smp.c and the unnamed variant
  of the cache file).  The C functions are shallowly embedded: register state
  becomes explicit record state, hardware cache/maintenance instructions and
  cross-core effects become event traces, 32-bit machine arithmetic becomes
  Nat arithmetic reduced mod 2^32, and a C panic becomes Option.none.
-/

/-- Truncation to a 32-bit unsigned value, as C u32 assignment does. -/
def u32 (n : Nat) : Nat := n % 2 ^ 32

/-- C unsigned 32-bit subtraction `a - b` (wraps modulo 2^32). -/
def usub (a b : Nat) : Nat := (u32 a + 2 ^ 32 - u32 b) % 2 ^ 32

/-- C bitwise complement of a 32-bit value. -/
def cNot32 (x : Nat) : Nat := (2 ^ 32 - 1) ^^^ u32 x

/--
Cache geometry and dispatch-relevant runtime facts, populated once at boot by
probe_pcache / probe_scache and read-only afterwards (spec section 3,
CacheGeometry).  `needs_ipi` is the value of ingenic_op_needs_ipi() and
`mach_ge_x1830` the value of `mips_machtype >= MACH_INGENIC_X1830`.
-/
structure CacheConfig where
  dcache_size : Nat
  icache_size : Nat
  scache_size : Nat
  sc_lsize : Nat
  needs_ipi : Bool
  mach_ge_x1830 : Bool
deriving DecidableEq, Repr

/--
One hardware cache-maintenance action, as invoked by the C code.  Events
named after a function pointer (blastDcache, blastScache, blastScacheRange)
record an invocation of the installed strategy pointer; the others record
direct calls of the named primitive.
-/
inductive CacheEvent where
  | blastDcache
  | blastIcache
  | blastDcache32
  | blastDcacheRange (s e : Nat)
  | protDcacheRange (s e : Nat)
  | invDcacheRange (s e : Nat)
  | blastIcacheRange (s e : Nat)
  | protIcacheRange (s e : Nat)
  | blastScache
  | blastScacheRange (s e : Nat)
  | invScacheRange (s e : Nat)
  | hitWbInvSD (a : Nat)
  | errctlWstEn
  | errctlWstDis
  | sync
deriving DecidableEq, Repr

/-- True for events that operate on the unified secondary cache. -/
def CacheEvent.isScacheOp : CacheEvent → Bool
  | .blastScache => true
  | .blastScacheRange _ _ => true
  | .invScacheRange _ _ => true
  | .hitWbInvSD _ => true
  | _ => false

/--
__local_ingenic_flush_icache_range from c-ingenic.c lines 132-148 (the
unnamed cache file, lines 258-274, is identical): flush the data cache, by
whole-cache blast when `end - start >= dcache_size` and by line iteration
otherwise, then the instruction cache, by whole-cache blast when
`end - start > icache_size` and by line iteration otherwise.
-/
def __local_ingenic_flush_icache_range (cfg : CacheConfig)
    (start end_ : Nat) (user : Bool) : List CacheEvent :=
  (if cfg.dcache_size ≤ usub end_ start then [CacheEvent.blastDcache]
   else if user then [CacheEvent.protDcacheRange start end_]
   else [CacheEvent.blastDcacheRange start end_]) ++
  (if cfg.icache_size < usub end_ start then [CacheEvent.blastIcache]
   else if user then [CacheEvent.protIcacheRange start end_]
   else [CacheEvent.blastIcacheRange start end_])

/--
ingenic_dma_cache_wback_inv from c-ingenic.c lines 222-242.  Returns
(warned, trace): warned is the WARN_ON(size == 0) outcome, trace the cache
operations performed.
-/
def ingenic_dma_cache_wback_inv (cfg : CacheConfig)
    (address size : Nat) : Bool × List CacheEvent :=
  if size = 0 then (true, [])
  else
    (false,
      (if !cfg.needs_ipi && cfg.dcache_size ≤ size then [CacheEvent.blastDcache]
       else [CacheEvent.blastDcacheRange address (u32 (address + size))]) ++
      (if cfg.scache_size ≤ size then [CacheEvent.blastScache]
       else [CacheEvent.blastScacheRange address (u32 (address + size))]) ++
      [CacheEvent.sync])

/-- xburst_dma_cache_inv from c-ingenic.c lines 244-261 (generation 1). -/
def xburst_dma_cache_inv (cfg : CacheConfig)
    (address size : Nat) : Bool × List CacheEvent :=
  if size = 0 then (true, [])
  else
    (false,
      [CacheEvent.errctlWstEn] ++
      (if !cfg.needs_ipi && cfg.dcache_size ≤ size then [CacheEvent.blastDcache]
       else [CacheEvent.invDcacheRange address (u32 (address + size))]) ++
      [CacheEvent.errctlWstDis, CacheEvent.sync])

/--
xburst2_dma_cache_inv from c-ingenic.c lines 263-289 (generation 2; the
unnamed cache file, lines 453-479, is identical).  For a range smaller than
the secondary cache, two Hit_Writeback_Inv_SD boundary operations are issued
at the line-aligned endpoints before the interior invalidate.
-/
def xburst2_dma_cache_inv (cfg : CacheConfig)
    (address size : Nat) : Bool × List CacheEvent :=
  if size = 0 then (true, [])
  else
    let almask := cNot32 (cfg.sc_lsize - 1)
    (false,
      (if !cfg.needs_ipi && cfg.dcache_size ≤ size then [CacheEvent.blastDcache]
       else [CacheEvent.invDcacheRange address (u32 (address + size))]) ++
      (if cfg.scache_size ≤ size then [CacheEvent.blastScache]
       else [CacheEvent.hitWbInvSD (address &&& almask),
             CacheEvent.hitWbInvSD (u32 (address + size - 1) &&& almask),
             CacheEvent.invScacheRange address (u32 (address + size))]) ++
      [CacheEvent.sync])

/-- xburst_dma_cache_wback_inv from the unnamed cache file, lines 343-364. -/
def xburst_dma_cache_wback_inv (cfg : CacheConfig)
    (addr size : Nat) : Bool × List CacheEvent :=
  if size = 0 then (true, [])
  else
    (false,
      [CacheEvent.errctlWstEn] ++
      (if !cfg.needs_ipi && cfg.dcache_size ≤ size then
         (if cfg.mach_ge_x1830 then [CacheEvent.blastDcache]
          else [CacheEvent.blastDcache32])
       else [CacheEvent.blastDcacheRange addr (u32 (addr + size))]) ++
      [CacheEvent.errctlWstDis, CacheEvent.sync])

/-- The DMA maintenance routines that ingenic_cache_init can install. -/
inductive DmaOp where
  | ingenic_dma_cache_wback_inv_op
  | xburst_dma_cache_inv_op
  | xburst2_dma_cache_inv_op
deriving DecidableEq, Repr

/-- The `_dma_cache_*` function-pointer slots of the installed table. -/
structure DmaCacheOps where
  _dma_cache_wback_inv : DmaOp
  _dma_cache_wback : DmaOp
  _dma_cache_inv : DmaOp
deriving DecidableEq, Repr

/-- The microarchitecture generations distinguished by current_cpu_type(). -/
inductive IngenicCpuType where
  | CPU_XBURST
  | CPU_XBURST2
  | unknown
deriving DecidableEq, Repr

/--
The DMA part of ingenic_cache_init from c-ingenic.c lines 479-486:
`_dma_cache_wback_inv` and `_dma_cache_wback` are both bound to
ingenic_dma_cache_wback_inv, `_dma_cache_inv` is chosen by CPU type, and an
unknown CPU type panics (none).
-/
def ingenic_cache_init_dma (c : IngenicCpuType) : Option DmaCacheOps :=
  match c with
  | .CPU_XBURST =>
    some { _dma_cache_wback_inv := .ingenic_dma_cache_wback_inv_op,
           _dma_cache_wback := .ingenic_dma_cache_wback_inv_op,
           _dma_cache_inv := .xburst_dma_cache_inv_op }
  | .CPU_XBURST2 =>
    some { _dma_cache_wback_inv := .ingenic_dma_cache_wback_inv_op,
           _dma_cache_wback := .ingenic_dma_cache_wback_inv_op,
           _dma_cache_inv := .xburst2_dma_cache_inv_op }
  | .unknown => none

/-- Dispatch through a table slot, as callers of `_dma_cache_*` do. -/
def runDmaOp (op : DmaOp) (cfg : CacheConfig)
    (addr size : Nat) : Bool × List CacheEvent :=
  match op with
  | .ingenic_dma_cache_wback_inv_op => ingenic_dma_cache_wback_inv cfg addr size
  | .xburst_dma_cache_inv_op => xburst_dma_cache_inv cfg addr size
  | .xburst2_dma_cache_inv_op => xburst2_dma_cache_inv cfg addr size

/-- CORESTATUS mailbox-IRQ-pending bit for core 0 (mach-jz4740/smp.h). -/
def CORESTATUS_MIRQ0P : Nat := 1

/-- REIM mailbox-IRQ mask bit for core 0 (mach-jz4740/smp.h). -/
def REIM_MBOXIRQ0M : Nat := 1

/-- REIM reset-entry-point field (mach-jz4740/smp.h). -/
def REIM_ENTRY : Nat := 0xffff <<< 16

/-- CORECTRL software-reset bit for core 0 (mach-jz4740/smp.h). -/
def CORECTRL_SWRST0 : Nat := 1

/--
Modelled from the spec: the reschedule-request IPI action bit.  The numeric
value comes from the generic MIPS kernel header (not under src/); the model
only relies on it being a single bit distinct from the call-function bit.
-/
def SMP_RESCHEDULE_YOURSELF : Nat := 1

/--
Modelled from the spec: the call-function-request IPI action bit, a single
bit distinct from the reschedule bit (generic MIPS kernel header, not under
src/).
-/
def SMP_CALL_FUNCTION : Nat := 2

/--
The per-core hardware registers touched by the mailbox IPI transport: the
four per-core mailbox registers and the shared core-status register.
-/
structure SmpState where
  mailbox0 : Nat
  mailbox1 : Nat
  mailbox2 : Nat
  mailbox3 : Nat
  corestatus : Nat
deriving DecidableEq, Repr

/-- Read the mailbox register of a given core (out-of-range reads 0). -/
def SmpState.mbox (s : SmpState) : Nat → Nat
  | 0 => s.mailbox0
  | 1 => s.mailbox1
  | 2 => s.mailbox2
  | 3 => s.mailbox3
  | _ => 0

/--
jz4780_send_ipi_single_locked from the SMP code embedded in c-ingenic.c
(lines 801-825): merge `action` into the target core mailbox; an index
outside 0..3 panics (none).  The jz4780_send_ipi_single wrapper only takes
the global spinlock around this body.
-/
def jz4780_send_ipi_single_locked (s : SmpState)
    (cpu action : Nat) : Option SmpState :=
  match cpu with
  | 0 => some { s with mailbox0 := u32 (s.mailbox0 ||| action) }
  | 1 => some { s with mailbox1 := u32 (s.mailbox1 ||| action) }
  | 2 => some { s with mailbox2 := u32 (s.mailbox2 ||| action) }
  | 3 => some { s with mailbox3 := u32 (s.mailbox3 ||| action) }
  | _ => none

/--
jz4780_send_ipi_single_locked from arch/mips/jz4740/smp.c lines 204-220:
this variant only recognizes cores 0 and 1 and panics (none) on any other
index, including 2 and 3.
-/
def jz4780_send_ipi_single_locked_jz (s : SmpState)
    (cpu action : Nat) : Option SmpState :=
  match cpu with
  | 0 => some { s with mailbox0 := u32 (s.mailbox0 ||| action) }
  | 1 => some { s with mailbox1 := u32 (s.mailbox1 ||| action) }
  | _ => none

/--
jz4780_send_ipi_mask (c-ingenic.c variant): iterate the target set under one
lock acquisition, sending to each core in turn; the first unrecognized index
panics.
-/
def jz4780_send_ipi_mask_locked (s : SmpState)
    (cpus : List Nat) (action : Nat) : Option SmpState :=
  match cpus with
  | [] => some s
  | c :: rest =>
    match jz4780_send_ipi_single_locked s c action with
    | none => none
    | some s1 => jz4780_send_ipi_mask_locked s1 rest action

/-- jz4780_send_ipi_mask from arch/mips/jz4740/smp.c lines 231-243. -/
def jz4780_send_ipi_mask_locked_jz (s : SmpState)
    (cpus : List Nat) (action : Nat) : Option SmpState :=
  match cpus with
  | [] => some s
  | c :: rest =>
    match jz4780_send_ipi_single_locked_jz s c action with
    | none => none
    | some s1 => jz4780_send_ipi_mask_locked_jz s1 rest action

/-- The two cross-core request kinds the mailbox handler can dispatch. -/
inductive IpiDispatch where
  | resched
  | callFunc
deriving DecidableEq, Repr

/--
An observable effect of the mailbox interrupt handler: dispatching one of
the two request handlers, or emitting a spurious-condition log message.
-/
inductive HandlerEvent where
  | dispatch (d : IpiDispatch)
  | logSpurious
deriving DecidableEq, Repr

/--
The dispatch tail of mbox_handler: scheduler_ipi() iff the reschedule bit is
set in the decoded action word, generic_smp_call_function_interrupt() iff
the call-function bit is set, in that order.  No other effect is emitted.
-/
def mbox_handler_dispatch (action : Nat) : List HandlerEvent :=
  (if action &&& SMP_RESCHEDULE_YOURSELF ≠ 0 then [HandlerEvent.dispatch .resched]
   else []) ++
  (if action &&& SMP_CALL_FUNCTION ≠ 0 then [HandlerEvent.dispatch .callFunc]
   else [])

/--
mbox_handler from arch/mips/jz4740/smp.c lines 27-68 (the copy embedded in
c-ingenic.c, lines 617-658, is identical): under the lock, read and clear
the executing core mailbox (panic for an index outside 0..3), clear the
pending bit of that core in corestatus, then dispatch; the Bool records the
IRQ_HANDLED return.
-/
def mbox_handler (s : SmpState)
    (cpu : Nat) : Option (SmpState × List HandlerEvent × Bool) :=
  let readAndClear : Option (Nat × SmpState) :=
    match cpu with
    | 0 => some (s.mailbox0, { s with mailbox0 := 0 })
    | 1 => some (s.mailbox1, { s with mailbox1 := 0 })
    | 2 => some (s.mailbox2, { s with mailbox2 := 0 })
    | 3 => some (s.mailbox3, { s with mailbox3 := 0 })
    | _ => none
  match readAndClear with
  | none => none
  | some (action, s1) =>
    let s2 := { s1 with
      corestatus := u32 s1.corestatus &&& cNot32 (CORESTATUS_MIRQ0P <<< cpu) }
    some (s2, mbox_handler_dispatch action, true)

/-- One observable step of jz4780_boot_secondary, in program order. -/
inductive BootEvent where
  | readCorectrl
  | writeCorectrl (v : Nat)
  | clkPrepare
  | clkEnable
  | writeEntrySp (v : Nat)
  | writeEntryGp (v : Nat)
  | smpWmb
  | setRunning (cpu : Nat)
deriving DecidableEq, Repr

/--
Event trace of jz4780_boot_secondary from the SMP code embedded in
c-ingenic.c (lines 735-773): assert the software reset of the target core,
ungate its clock when a gate handle exists (clk_prepare then clk_enable),
store the shared entry stack pointer and global pointer, smp_wmb(), write
corectrl with the reset bit cleared, and mark the core running.  `ctrl0` is
the corectrl value read at entry.
-/
def jz4780_boot_secondary_trace (cpu ctrl0 sp gp : Nat)
    (hasGate : Bool) : List BootEvent :=
  let ctrl := u32 ctrl0 ||| (CORECTRL_SWRST0 <<< cpu)
  [BootEvent.readCorectrl, BootEvent.writeCorectrl ctrl] ++
  (if hasGate then [BootEvent.clkPrepare, BootEvent.clkEnable] else []) ++
  [BootEvent.writeEntrySp sp, BootEvent.writeEntryGp gp, BootEvent.smpWmb,
   BootEvent.writeCorectrl (ctrl &&& cNot32 (CORECTRL_SWRST0 <<< cpu)),
   BootEvent.setRunning cpu]

/--
Event trace of jz4780_boot_secondary from arch/mips/jz4740/smp.c lines
146-176: identical ordering, except that only clk_enable is issued for the
clock gate (clk_prepare was already done in prepare_cpus).
-/
def jz4780_boot_secondary_trace_jz (cpu ctrl0 sp gp : Nat)
    (hasGate : Bool) : List BootEvent :=
  let ctrl := u32 ctrl0 ||| (CORECTRL_SWRST0 <<< cpu)
  [BootEvent.readCorectrl, BootEvent.writeCorectrl ctrl] ++
  (if hasGate then [BootEvent.clkEnable] else []) ++
  [BootEvent.writeEntrySp sp, BootEvent.writeEntryGp gp, BootEvent.smpWmb,
   BootEvent.writeCorectrl (ctrl &&& cNot32 (CORECTRL_SWRST0 <<< cpu)),
   BootEvent.setRunning cpu]

/--
The state touched by jz4780_smp_setup: the REIM register, the mailbox and
core-status registers, the possible-CPU mask and the cpu_running mask (both
modelled as bitmasks).
-/
structure SetupState where
  reim : Nat
  mailbox0 : Nat
  mailbox1 : Nat
  mailbox2 : Nat
  mailbox3 : Nat
  corestatus : Nat
  possible : Nat
  running : Nat
deriving DecidableEq, Repr

/--
jz4780_smp_setup from arch/mips/jz4740/smp.c lines 70-105.  The C loop
`for (cpu = 0; cpu < NR_CPUS; cpu++)` marks every index possible and leaves
the loop variable equal to NR_CPUS; the final cpumask_set_cpu then sets bit
`cpu` — that is, bit NR_CPUS — in cpu_running.  Only mailboxes 0 and 1 are
cleared by this variant.
-/
def jz4780_smp_setup_jz (s : SetupState) (nrCpus entryAddr : Nat) : SetupState :=
  let cpu := nrCpus
  let possible := (List.range nrCpus).foldl (fun p c => p ||| (1 <<< c)) s.possible
  let reim1 := u32 s.reim &&& cNot32 REIM_MBOXIRQ0M
  let reim2 := (reim1 &&& cNot32 REIM_ENTRY) ||| (u32 entryAddr &&& REIM_ENTRY)
  let reim3 := reim2 ||| REIM_MBOXIRQ0M
  { s with
    reim := reim3
    mailbox0 := 0
    mailbox1 := 0
    corestatus := 0
    possible := possible
    running := s.running ||| (1 <<< cpu) }

/--
jz4780_smp_setup from the SMP code embedded in c-ingenic.c (lines 660-698).
`int cpu = 0` is post-incremented once per firmware CPU node, so after the
loop `cpu` equals the node count, and the final cpumask_set_cpu sets that
bit in cpu_running.  All four mailboxes are cleared by this variant.
-/
def jz4780_smp_setup_ci (s : SetupState) (nrCpuNodes entryAddr : Nat) : SetupState :=
  let cpu := nrCpuNodes
  let possible := (List.range nrCpuNodes).foldl (fun p c => p ||| (1 <<< c)) s.possible
  let reim1 := u32 s.reim &&& cNot32 REIM_MBOXIRQ0M
  let reim2 := (reim1 &&& cNot32 REIM_ENTRY) ||| (u32 entryAddr &&& REIM_ENTRY)
  let reim3 := reim2 ||| REIM_MBOXIRQ0M
  { s with
    reim := reim3
    mailbox0 := 0
    mailbox1 := 0
    mailbox2 := 0
    mailbox3 := 0
    corestatus := 0
    possible := possible
    running := s.running ||| (1 <<< cpu) }

/--
The mailbox-clearing switch at the top of play_dead (SMP code embedded in
c-ingenic.c, lines 909-916): only core indices 0 and 1 have a case; any
other index falls through with its mailbox untouched.
-/
def play_dead_clear_mailbox (s : SmpState) (cpu : Nat) : SmpState :=
  match cpu with
  | 0 => { s with mailbox0 := 0 }
  | 1 => { s with mailbox1 := 0 }
  | _ => s

/--
smp_clr_pending from mach-jz4740/smp.h: clear the bits of `mask & 0xff` in
the core-status register.
-/
def smp_clr_pending (s : SmpState) (mask : Nat) : SmpState :=
  { s with corestatus := u32 s.corestatus &&& cNot32 (mask &&& 0xff) }

/--
The prologue of play_dead before its infinite loop: clear the own mailbox
(cores 0 and 1 only) and then the own pending-interrupt bit via
smp_clr_pending(1 << cpu).
-/
def play_dead_prologue (s : SmpState) (cpu : Nat) : SmpState :=
  smp_clr_pending (play_dead_clear_mailbox s cpu) (1 <<< cpu)

/--
The inner spin of play_dead, `while (cpumask_test_cpu(cpu, &cpu_running)) ;`,
run against a stream of observed cpu_running values: it consumes
observations while the own running bit is SET and proceeds with the first
observation in which the bit is clear; none means the stream ended with the
loop still spinning.
-/
def play_dead_wait (cpu : Nat) : List Nat → Option Nat
  | [] => none
  | r :: rest => if r.testBit cpu then play_dead_wait cpu rest else some r

/-- The observable actions of one play_dead loop body after leaving the spin. -/
inductive PdEvent where
  | blastIcache32
  | blastDcache32
  | jumpUncachedEntry
deriving DecidableEq, Repr

/--
One iteration of the play_dead outer loop: spin on the running bit, then
blast_icache32(), blast_dcache32() and the jump to the KSEG1 (uncached)
image of __play_dead, in that order.  The returned Nat is the cpu_running
value observed when the spin exited.
-/
def play_dead_iteration (cpu : Nat) (obs : List Nat) : Option (Nat × List PdEvent) :=
  (play_dead_wait cpu obs).map
    (fun r => (r, [PdEvent.blastIcache32, PdEvent.blastDcache32,
                   PdEvent.jumpUncachedEntry]))

theorem one_shiftLeft_lt_two_pow_32 (cpu : Nat) (h : cpu < 32) :
    1 <<< cpu < 2 ^ 32 := by
  simpa [Nat.shiftLeft_eq] using Nat.pow_lt_pow_right one_lt_two h

theorem testBit_one_shiftLeft_self (cpu : Nat) :
    (1 <<< cpu).testBit cpu = true := by
  simp [Nat.testBit_shiftLeft]

theorem testBit_cNot32_one_shiftLeft (cpu : Nat) (h : cpu < 32) :
    (cNot32 (1 <<< cpu)).testBit cpu = false := by
  have hlt := one_shiftLeft_lt_two_pow_32 cpu h
  unfold cNot32 u32
  rw [Nat.mod_eq_of_lt hlt, Nat.testBit_xor, Nat.testBit_two_pow_sub_one,
    testBit_one_shiftLeft_self]
  simp [h]

/--
C8: each DMA cache-maintenance entry point — the shared write-back-
invalidate, the generation-1 wback-invalidate of the unnamed cache file and
the invalidate of both microarchitecture generations — called with size 0
emits the WARN_ON warning and returns at once as a no-op: no cache
operation, no errctl write, no sync is performed and the machine state is
untouched.
-/
theorem C8_zero_size_noop (cfg : CacheConfig) (addr : Nat) :
    ingenic_dma_cache_wback_inv cfg addr 0 = (true, []) ∧
    xburst_dma_cache_inv cfg addr 0 = (true, []) ∧
    xburst2_dma_cache_inv cfg addr 0 = (true, []) ∧
    xburst_dma_cache_wback_inv cfg addr 0 = (true, []) :=
  ⟨rfl, rfl, rfl, rfl⟩

/--
C10: whenever ingenic_cache_init installs a DMA operation table (i.e. the
CPU type is recognized), the `_dma_cache_wback` slot and the
`_dma_cache_wback_inv` slot hold the same routine —
ingenic_dma_cache_wback_inv — so dispatching a DMA write-back behaves
identically to a write-back-invalidate for every address and size.
-/
theorem C10_wback_eq_wback_inv (c : IngenicCpuType) (t : DmaCacheOps)
    (h : ingenic_cache_init_dma c = some t) :
    t._dma_cache_wback = t._dma_cache_wback_inv ∧
    ∀ cfg addr size, runDmaOp t._dma_cache_wback cfg addr size =
      runDmaOp t._dma_cache_wback_inv cfg addr size := by
  cases c with
  | CPU_XBURST =>
    injection h with h2
    subst h2
    exact ⟨rfl, fun _ _ _ => rfl⟩
  | CPU_XBURST2 =>
    injection h with h2
    subst h2
    exact ⟨rfl, fun _ _ _ => rfl⟩
  | unknown => simp [ingenic_cache_init_dma] at h

/--
C10 witness: on the generation-1 CPU type the installed table has the same
routine in both write-back slots.
-/
theorem C10_wback_eq_wback_inv_witness :
    (⟨DmaOp.ingenic_dma_cache_wback_inv_op, DmaOp.ingenic_dma_cache_wback_inv_op,
      DmaOp.xburst_dma_cache_inv_op⟩ : DmaCacheOps)._dma_cache_wback =
    (⟨DmaOp.ingenic_dma_cache_wback_inv_op, DmaOp.ingenic_dma_cache_wback_inv_op,
      DmaOp.xburst_dma_cache_inv_op⟩ : DmaCacheOps)._dma_cache_wback_inv :=
  (C10_wback_eq_wback_inv IngenicCpuType.CPU_XBURST _ rfl).1

/--
C7: evaluation of both jz4780_smp_setup variants at the failing input
(running mask initially empty, two CPUs, primary core 0 executing): the
final cpumask_set_cpu uses the loop variable left over from the CPU
enumeration, so bit 2 (= NR_CPUS, respectively the CPU-node count) is set
in cpu_running while bit 0 — the core that actually executed setup() —
remains clear.  The claim (and the spec sentence "records itself as
running") describes the evident intent; the code sets an out-of-range CPU
bit instead.
-/
theorem C7_setup_running_bit :
    ((jz4780_smp_setup_jz ⟨0, 0, 0, 0, 0, 0, 0, 0⟩ 2 0).running.testBit 0 = false) ∧
    ((jz4780_smp_setup_jz ⟨0, 0, 0, 0, 0, 0, 0, 0⟩ 2 0).running = 4) ∧
    ((jz4780_smp_setup_ci ⟨0, 0, 0, 0, 0, 0, 0, 0⟩ 2 0).running.testBit 0 = false) ∧
    ((jz4780_smp_setup_ci ⟨0, 0, 0, 0, 0, 0, 0, 0⟩ 2 0).running = 4) := by
  decide

/--
C1 (amended): in __local_ingenic_flush_icache_range the data cache is
blasted whole iff `end - start >= dcache_size` and line-iterated iff
`end - start < dcache_size`, but the instruction cache is blasted whole iff
`end - start > icache_size` (strictly greater) and line-iterated iff
`end - start <= icache_size`: a request whose length equals the icache size
exactly takes the line-iteration primitive for the icache, not the
whole-cache blast.
-/
theorem C1_flush_range_threshold (cfg : CacheConfig)
    (start end_ : Nat) (user : Bool) :
    (CacheEvent.blastDcache ∈ __local_ingenic_flush_icache_range cfg start end_ user
       ↔ cfg.dcache_size ≤ usub end_ start) ∧
    ((∃ a b, CacheEvent.protDcacheRange a b ∈
          __local_ingenic_flush_icache_range cfg start end_ user ∨
        CacheEvent.blastDcacheRange a b ∈
          __local_ingenic_flush_icache_range cfg start end_ user)
       ↔ usub end_ start < cfg.dcache_size) ∧
    (CacheEvent.blastIcache ∈ __local_ingenic_flush_icache_range cfg start end_ user
       ↔ cfg.icache_size < usub end_ start) ∧
    ((∃ a b, CacheEvent.protIcacheRange a b ∈
          __local_ingenic_flush_icache_range cfg start end_ user ∨
        CacheEvent.blastIcacheRange a b ∈
          __local_ingenic_flush_icache_range cfg start end_ user)
       ↔ usub end_ start ≤ cfg.icache_size) := by
  unfold __local_ingenic_flush_icache_range
  split_ifs with h1 h2 h3 h4 h5 <;>
    refine ⟨?_, ?_, ?_, ?_⟩ <;> simp_all

/--
C1 counterexample: with icache_size = 4096 a flush of exactly 4096 bytes
(start 0, end 4096, kernel mode) does NOT use the whole-icache blast — the
claim requires it for `end - start >= icache_size` — while the data cache of
the same size is blasted.
-/
theorem C1_threshold_counterexample :
    4096 ≤ usub 4096 0 ∧
    CacheEvent.blastIcache ∉
      __local_ingenic_flush_icache_range ⟨4096, 4096, 16384, 32, false, true⟩
        0 4096 false ∧
    CacheEvent.blastIcacheRange 0 4096 ∈
      __local_ingenic_flush_icache_range ⟨4096, 4096, 16384, 32, false, true⟩
        0 4096 false := by
  decide

/--
C5 (amended): on the generation-2 microarchitecture, for a nonzero size
strictly smaller than the secondary cache, xburst2_dma_cache_inv issues
exactly two Hit_Writeback_Inv_SD operations, at the two line-aligned
endpoints of the range, immediately before the interior invalidate; when
`size >= scache_size` the whole secondary cache is blasted instead and no
boundary operation is issued.
-/
theorem C5_dma_inv_boundary (cfg : CacheConfig) (addr size : Nat)
    (h0 : 0 < size) (hs : size < cfg.scache_size) :
    (xburst2_dma_cache_inv cfg addr size).2.filter (fun e => e.isScacheOp) =
      [CacheEvent.hitWbInvSD (addr &&& cNot32 (cfg.sc_lsize - 1)),
       CacheEvent.hitWbInvSD (u32 (addr + size - 1) &&& cNot32 (cfg.sc_lsize - 1)),
       CacheEvent.invScacheRange addr (u32 (addr + size))] := by
  have hz : ¬ size = 0 := by omega
  have hsc : ¬ (cfg.scache_size ≤ size) := by omega
  unfold xburst2_dma_cache_inv
  split_ifs <;> simp_all [CacheEvent.isScacheOp]

/--
C5 witness: a 60-byte invalidate at address 100 against a 1024-byte
secondary cache with 32-byte lines issues the two boundary operations and
then the interior invalidate.
-/
theorem C5_dma_inv_boundary_witness :
    0 < 60 ∧ 60 < 1024 ∧
    (xburst2_dma_cache_inv ⟨32, 32, 1024, 32, false, true⟩ 100 60).2.filter
        (fun e => e.isScacheOp) =
      [CacheEvent.hitWbInvSD (100 &&& cNot32 (32 - 1)),
       CacheEvent.hitWbInvSD (u32 (100 + 60 - 1) &&& cNot32 (32 - 1)),
       CacheEvent.invScacheRange 100 (u32 (100 + 60))] :=
  ⟨by decide, by decide,
    C5_dma_inv_boundary ⟨32, 32, 1024, 32, false, true⟩ 100 60
      (by decide) (by decide)⟩

/--
C5 counterexample: with a 1024-byte secondary cache, a nonzero invalidate of
exactly 1024 bytes issues NO Hit_Writeback_Inv_SD boundary operation — the
whole-scache blast is used — contradicting the claim that every nonzero
size issues exactly two of them.
-/
theorem C5_boundary_counterexample :
    ¬ (((xburst2_dma_cache_inv ⟨32, 32, 1024, 32, false, true⟩ 0 1024).2.countP
        (fun e => match e with | CacheEvent.hitWbInvSD _ => true | _ => false)) = 2) ∧
    ((xburst2_dma_cache_inv ⟨32, 32, 1024, 32, false, true⟩ 0 1024).2.countP
        (fun e => match e with | CacheEvent.hitWbInvSD _ => true | _ => false)) = 0 := by
  decide

theorem jz4780_send_ipi_single_locked_none_iff (s : SmpState) (cpu action : Nat) :
    jz4780_send_ipi_single_locked s cpu action = none ↔ 4 ≤ cpu := by
  rcases cpu with _ | _ | _ | _ | n <;>
    simp [jz4780_send_ipi_single_locked]

theorem jz4780_send_ipi_single_locked_jz_none_iff (s : SmpState) (cpu action : Nat) :
    jz4780_send_ipi_single_locked_jz s cpu action = none ↔ 2 ≤ cpu := by
  rcases cpu with _ | _ | n <;>
    simp [jz4780_send_ipi_single_locked_jz]

theorem mbox_handler_none_iff (s : SmpState) (cpu : Nat) :
    mbox_handler s cpu = none ↔ 4 ≤ cpu := by
  rcases cpu with _ | _ | _ | _ | n <;>
    simp [mbox_handler]

theorem jz4780_send_ipi_mask_locked_none_iff (cpus : List Nat) :
    ∀ (s : SmpState) (action : Nat),
      (jz4780_send_ipi_mask_locked s cpus action = none ↔ ∃ c ∈ cpus, 4 ≤ c) := by
  induction cpus with
  | nil => intro s action; simp [jz4780_send_ipi_mask_locked]
  | cons c rest ih =>
    intro s action
    by_cases h4 : 4 ≤ c
    · have hn : jz4780_send_ipi_single_locked s c action = none :=
        (jz4780_send_ipi_single_locked_none_iff s c action).mpr h4
      rw [jz4780_send_ipi_mask_locked, hn]
      exact iff_of_true rfl ⟨c, List.mem_cons_self c rest, h4⟩
    · have hne : jz4780_send_ipi_single_locked s c action ≠ none := by
        rw [Ne, jz4780_send_ipi_single_locked_none_iff]; exact h4
      obtain ⟨s1, hs1⟩ := Option.ne_none_iff_exists'.mp hne
      rw [jz4780_send_ipi_mask_locked, hs1, ih s1 action]
      simp only [List.mem_cons]
      constructor
      · rintro ⟨x, hx, hge⟩
        exact ⟨x, Or.inr hx, hge⟩
      · rintro ⟨x, hx | hx, hge⟩
        · exact absurd (hx ▸ hge) h4
        · exact ⟨x, hx, hge⟩

theorem jz4780_send_ipi_mask_locked_jz_none_iff (cpus : List Nat) :
    ∀ (s : SmpState) (action : Nat),
      (jz4780_send_ipi_mask_locked_jz s cpus action = none ↔ ∃ c ∈ cpus, 2 ≤ c) := by
  induction cpus with
  | nil => intro s action; simp [jz4780_send_ipi_mask_locked_jz]
  | cons c rest ih =>
    intro s action
    by_cases h2 : 2 ≤ c
    · have hn : jz4780_send_ipi_single_locked_jz s c action = none :=
        (jz4780_send_ipi_single_locked_jz_none_iff s c action).mpr h2
      rw [jz4780_send_ipi_mask_locked_jz, hn]
      exact iff_of_true rfl ⟨c, List.mem_cons_self c rest, h2⟩
    · have hne : jz4780_send_ipi_single_locked_jz s c action ≠ none := by
        rw [Ne, jz4780_send_ipi_single_locked_jz_none_iff]; exact h2
      obtain ⟨s1, hs1⟩ := Option.ne_none_iff_exists'.mp hne
      rw [jz4780_send_ipi_mask_locked_jz, hs1, ih s1 action]
      simp only [List.mem_cons]
      constructor
      · rintro ⟨x, hx, hge⟩
        exact ⟨x, Or.inr hx, hge⟩
      · rintro ⟨x, hx | hx, hge⟩
        · exact absurd (hx ▸ hge) h2
        · exact ⟨x, hx, hge⟩

/--
C4 (amended): the mailbox interrupt handler and the send primitives of the
SMP code embedded in c-ingenic.c halt the kernel exactly when a passed core
index lies outside 0..3; the send primitives of arch/mips/jz4740/smp.c,
however, halt exactly when an index lies outside {0, 1} — so the topology
indices 2 and 3, which the handler itself accepts, DO cause a halt when
passed to that variant's single or masked IPI send.
-/
theorem C4_panic_domains (s : SmpState) (cpu action : Nat) (cpus : List Nat) :
    (mbox_handler s cpu = none ↔ 4 ≤ cpu) ∧
    (jz4780_send_ipi_single_locked s cpu action = none ↔ 4 ≤ cpu) ∧
    (jz4780_send_ipi_mask_locked s cpus action = none ↔ ∃ c ∈ cpus, 4 ≤ c) ∧
    (jz4780_send_ipi_single_locked_jz s cpu action = none ↔ 2 ≤ cpu) ∧
    (jz4780_send_ipi_mask_locked_jz s cpus action = none ↔ ∃ c ∈ cpus, 2 ≤ c) :=
  ⟨mbox_handler_none_iff s cpu,
   jz4780_send_ipi_single_locked_none_iff s cpu action,
   jz4780_send_ipi_mask_locked_none_iff cpus s action,
   jz4780_send_ipi_single_locked_jz_none_iff s cpu action,
   jz4780_send_ipi_mask_locked_jz_none_iff cpus s action⟩

/--
C4 counterexample: core index 2 is one of the (at most four) cores of the
hardware topology — the mailbox handler accepts it — yet the
arch/mips/jz4740/smp.c single-target IPI send halts the kernel on it, so
"a recognized core index never causes a halt" is false as stated.
-/
theorem C4_send_cpu2_counterexample :
    jz4780_send_ipi_single_locked_jz ⟨0, 0, 0, 0, 0⟩ 2 1 = none ∧
    (mbox_handler ⟨0, 0, 0, 0, 0⟩ 2).isSome = true := by
  decide

/--
C9 (amended): when the mailbox interrupt handler runs on a core whose
mailbox register holds no action bits, it completes normally — it does not
halt, it returns IRQ_HANDLED — and dispatches nothing; but contrary to the
claim it emits no spurious-condition report either: the handler contains no
logging of any kind.
-/
theorem C9_spurious_no_dispatch (s : SmpState) (cpu : Nat)
    (hc : cpu < 4) (hm : s.mbox cpu = 0) :
    (mbox_handler s cpu).map (fun r => (r.2.1, r.2.2)) = some ([], true) := by
  interval_cases cpu <;>
    simp [SmpState.mbox] at hm <;>
    simp [mbox_handler, mbox_handler_dispatch, hm,
      SMP_RESCHEDULE_YOURSELF, SMP_CALL_FUNCTION]

/--
C9 witness: on core 1 with an empty mailbox the handler dispatches nothing
and returns IRQ_HANDLED.
-/
theorem C9_spurious_no_dispatch_witness :
    (1 : Nat) < 4 ∧ (SmpState.mk 9 0 0 0 3).mbox 1 = 0 ∧
    (mbox_handler (SmpState.mk 9 0 0 0 3) 1).map (fun r => (r.2.1, r.2.2)) =
      some ([], true) :=
  ⟨by decide, by decide,
    C9_spurious_no_dispatch (SmpState.mk 9 0 0 0 3) 1 (by decide) (by decide)⟩

/--
C9 counterexample: delivering the mailbox interrupt to core 0 with an empty
mailbox produces an event list containing zero logSpurious events — the
condition is NOT logged, although the claim says it is reported (logged).
-/
theorem C9_no_spurious_log_counterexample :
    (mbox_handler ⟨0, 0, 0, 0, 0⟩ 0).map
      (fun r => r.2.1.count HandlerEvent.logSpurious) = some 0 ∧
    (mbox_handler ⟨0, 0, 0, 0, 0⟩ 0).isSome = true := by
  decide

theorem play_dead_wait_bit_clear (cpu : Nat) :
    ∀ (obs : List Nat) (r : Nat),
      play_dead_wait cpu obs = some r → r.testBit cpu = false := by
  intro obs
  induction obs with
  | nil => intro r h; simp [play_dead_wait] at h
  | cons x rest ih =>
    intro r h
    by_cases hx : x.testBit cpu
    · rw [play_dead_wait, if_pos hx] at h
      exact ih r h
    · rw [play_dead_wait, if_neg hx] at h
      cases h
      exact Bool.not_eq_true _ ▸ eq_false_of_ne_true hx

theorem smp_clr_pending_own_bit (s : SmpState) (cpu : Nat) (h : cpu < 8) :
    (smp_clr_pending s (1 <<< cpu)).corestatus.testBit cpu = false := by
  have h32 : cpu < 32 := by omega
  have hmask : (1 <<< cpu) &&& 0xff = 1 <<< cpu := by
    interval_cases cpu <;> decide
  show (u32 s.corestatus &&& cNot32 ((1 <<< cpu) &&& 0xff)).testBit cpu = false
  rw [hmask, Nat.testBit_land, testBit_cNot32_one_shiftLeft cpu h32,
    Bool.and_false]

/--
C6 (amended): play_dead on core `cpu` clears its own pending-interrupt bit
for every core index, but clears its own mailbox only when the index is 0
or 1 (the switch has no case for cores 2 and 3, whose mailboxes are left
untouched); it then repeatedly spin-waits until its running bit is CLEARED
(not set: the loop spins while cpumask_test_cpu holds), and once the bit is
observed clear it blasts the instruction cache, blasts the data cache and
jumps to the uncached (KSEG1) re-entry routine, in that order.
-/
theorem C6_play_dead (s : SmpState) (cpu : Nat) (hc : cpu < 4)
    (r : Nat) (obs : List Nat) (hw : play_dead_wait cpu obs = some r) :
    ((play_dead_prologue s cpu).corestatus.testBit cpu = false) ∧
    (cpu ≤ 1 → (play_dead_prologue s cpu).mbox cpu = 0) ∧
    (2 ≤ cpu → (play_dead_prologue s cpu).mbox cpu = s.mbox cpu) ∧
    (r.testBit cpu = false) ∧
    (play_dead_iteration cpu obs =
      some (r, [PdEvent.blastIcache32, PdEvent.blastDcache32,
                PdEvent.jumpUncachedEntry])) := by
  refine ⟨smp_clr_pending_own_bit _ cpu (by omega), ?_, ?_,
    play_dead_wait_bit_clear cpu obs r hw, ?_⟩
  · interval_cases cpu <;>
      simp [play_dead_prologue, smp_clr_pending, play_dead_clear_mailbox,
        SmpState.mbox]
  · interval_cases cpu <;>
      simp [play_dead_prologue, smp_clr_pending, play_dead_clear_mailbox,
        SmpState.mbox]
  · rw [play_dead_iteration, hw]
    rfl

/--
C6 witness: core 1, with the running mask observed first as 2 (bit 1 set,
keep spinning) and then 0 (bit 1 clear, proceed): the prologue clears the
pending bit and the mailbox, and the iteration flushes both caches and
jumps to the uncached entry.
-/
theorem C6_play_dead_witness :
    (1 : Nat) < 4 ∧ play_dead_wait 1 [2, 0] = some 0 ∧
    (((play_dead_prologue ⟨1, 2, 3, 4, 255⟩ 1).corestatus.testBit 1 = false) ∧
     ((1 : Nat) ≤ 1 → (play_dead_prologue ⟨1, 2, 3, 4, 255⟩ 1).mbox 1 = 0) ∧
     ((2 : Nat) ≤ 1 → (play_dead_prologue ⟨1, 2, 3, 4, 255⟩ 1).mbox 1 =
        (⟨1, 2, 3, 4, 255⟩ : SmpState).mbox 1) ∧
     ((0 : Nat).testBit 1 = false) ∧
     (play_dead_iteration 1 [2, 0] =
       some (0, [PdEvent.blastIcache32, PdEvent.blastDcache32,
                 PdEvent.jumpUncachedEntry]))) :=
  ⟨by decide, by decide,
    C6_play_dead ⟨1, 2, 3, 4, 255⟩ 1 (by decide) 0 [2, 0] (by decide)⟩

/--
C6 counterexample: with the running bit of core 0 SET in every observation
the spin never exits — play_dead does not proceed to the flush-and-jump body
when the bit is set, contrary to the claim ("spin-waits until its running
bit is externally set again"); and on core 2 the prologue leaves the
core-2 mailbox at its old value 5 instead of clearing it.
-/
theorem C6_play_dead_counterexample :
    play_dead_wait 0 [1, 1, 1] = none ∧
    play_dead_iteration 0 [1, 1, 1] = none ∧
    (play_dead_prologue ⟨0, 0, 5, 0, 255⟩ 2).mailbox2 = 5 := by
  decide

/--
C2: in both variants of jz4780_boot_secondary the trace decomposes as: a
prefix containing no memory barrier and only core-control writes that keep
the target reset bit asserted, then the entry-sp store, the entry-gp store,
the smp_wmb() barrier and, only after it, the core-control write whose value
has the target software-reset bit cleared (the deassert), on every call.
-/
theorem C2_boot_handoff_ordering (cpu ctrl0 sp gp : Nat) (hasGate : Bool)
    (hcpu : cpu < 32) :
    (∃ pre post dval,
      jz4780_boot_secondary_trace cpu ctrl0 sp gp hasGate =
        pre ++ [BootEvent.writeEntrySp sp, BootEvent.writeEntryGp gp,
                BootEvent.smpWmb, BootEvent.writeCorectrl dval] ++ post ∧
      dval.testBit cpu = false ∧
      BootEvent.smpWmb ∉ pre ∧
      (∀ v, BootEvent.writeCorectrl v ∈ pre → v.testBit cpu = true)) ∧
    (∃ pre post dval,
      jz4780_boot_secondary_trace_jz cpu ctrl0 sp gp hasGate =
        pre ++ [BootEvent.writeEntrySp sp, BootEvent.writeEntryGp gp,
                BootEvent.smpWmb, BootEvent.writeCorectrl dval] ++ post ∧
      dval.testBit cpu = false ∧
      BootEvent.smpWmb ∉ pre ∧
      (∀ v, BootEvent.writeCorectrl v ∈ pre → v.testBit cpu = true)) := by
  have hbit : (CORECTRL_SWRST0 <<< cpu).testBit cpu = true := by
    simp [CORECTRL_SWRST0, testBit_one_shiftLeft_self cpu]
  have hassert : (u32 ctrl0 ||| CORECTRL_SWRST0 <<< cpu).testBit cpu = true := by
    simp [Nat.testBit_lor, hbit]
  have hnot : (cNot32 (CORECTRL_SWRST0 <<< cpu)).testBit cpu = false := by
    simpa [CORECTRL_SWRST0] using testBit_cNot32_one_shiftLeft cpu hcpu
  have hdeassert :
      ((u32 ctrl0 ||| CORECTRL_SWRST0 <<< cpu) &&&
        cNot32 (CORECTRL_SWRST0 <<< cpu)).testBit cpu = false := by
    simp [Nat.testBit_land, hnot]
  constructor
  · cases hasGate with
    | false =>
      refine ⟨[BootEvent.readCorectrl,
          BootEvent.writeCorectrl (u32 ctrl0 ||| CORECTRL_SWRST0 <<< cpu)],
        [BootEvent.setRunning cpu], _, ?_, hdeassert, ?_, ?_⟩
      · simp [jz4780_boot_secondary_trace]
      · simp
      · intro v hv
        simp at hv
        subst hv
        exact hassert
    | true =>
      refine ⟨[BootEvent.readCorectrl,
          BootEvent.writeCorectrl (u32 ctrl0 ||| CORECTRL_SWRST0 <<< cpu),
          BootEvent.clkPrepare, BootEvent.clkEnable],
        [BootEvent.setRunning cpu], _, ?_, hdeassert, ?_, ?_⟩
      · simp [jz4780_boot_secondary_trace]
      · simp
      · intro v hv
        simp at hv
        subst hv
        exact hassert
  · cases hasGate with
    | false =>
      refine ⟨[BootEvent.readCorectrl,
          BootEvent.writeCorectrl (u32 ctrl0 ||| CORECTRL_SWRST0 <<< cpu)],
        [BootEvent.setRunning cpu], _, ?_, hdeassert, ?_, ?_⟩
      · simp [jz4780_boot_secondary_trace_jz]
      · simp
      · intro v hv
        simp at hv
        subst hv
        exact hassert
    | true =>
      refine ⟨[BootEvent.readCorectrl,
          BootEvent.writeCorectrl (u32 ctrl0 ||| CORECTRL_SWRST0 <<< cpu),
          BootEvent.clkEnable],
        [BootEvent.setRunning cpu], _, ?_, hdeassert, ?_, ?_⟩
      · simp [jz4780_boot_secondary_trace_jz]
      · simp
      · intro v hv
        simp at hv
        subst hv
        exact hassert

/--
C2 witness: booting core 1 with a clock gate present, corectrl initially 0,
sp 11 and gp 22: the sp/gp stores precede the barrier and the
reset-deassert write follows it.
-/
theorem C2_boot_handoff_ordering_witness :
    (1 : Nat) < 32 ∧
    ((∃ pre post dval,
      jz4780_boot_secondary_trace 1 0 11 22 true =
        pre ++ [BootEvent.writeEntrySp 11, BootEvent.writeEntryGp 22,
                BootEvent.smpWmb, BootEvent.writeCorectrl dval] ++ post ∧
      dval.testBit 1 = false ∧
      BootEvent.smpWmb ∉ pre ∧
      (∀ v, BootEvent.writeCorectrl v ∈ pre → v.testBit 1 = true)) ∧
    (∃ pre post dval,
      jz4780_boot_secondary_trace_jz 1 0 11 22 true =
        pre ++ [BootEvent.writeEntrySp 11, BootEvent.writeEntryGp 22,
                BootEvent.smpWmb, BootEvent.writeCorectrl dval] ++ post ∧
      dval.testBit 1 = false ∧
      BootEvent.smpWmb ∉ pre ∧
      (∀ v, BootEvent.writeCorectrl v ∈ pre → v.testBit 1 = true))) :=
  ⟨by decide, C2_boot_handoff_ordering 1 0 11 22 true (by decide)⟩

/--
C3 counterexample: the send primitive the claim cites
(jz4780_send_ipi_single_locked of arch/mips/jz4740/smp.c) halts the kernel
on core index 2 — a core of the hardware topology which the mailbox
interrupt handler itself accepts — instead of merging the action word into
mailbox 2, so no mailbox value is produced and no delivery round-trip can
follow: the claimed merge-then-dispatch behaviour is false at this valid
core index.
-/
theorem C3_roundtrip_counterexample :
    ((jz4780_send_ipi_single_locked_jz ⟨0, 0, 0, 0, 0⟩ 2 3).map
      (fun s1 => s1.mbox 2) = none) ∧
    ((jz4780_send_ipi_single_locked_jz ⟨0, 0, 0, 0, 0⟩ 2 3).bind
      (fun s1 => mbox_handler s1 2) = none) := by
  decide

/--
C3 (amended): for every core index that the cited send primitive of
arch/mips/jz4740/smp.c recognizes — 0 and 1 only; indices 2 and 3 halt the
kernel — and every action word composed of the reschedule and/or
call-function bits, sending merges the action into the target mailbox
(bitwise or, under the lock held by the jz4780_send_ipi_single wrapper),
and a subsequent delivery of the mailbox interrupt on that core — starting
from an empty mailbox before the send — dispatches the reschedule handler
exactly once iff the reschedule bit was set and the call-function handler
exactly once iff the call-function bit was set, returns IRQ_HANDLED, and
leaves the core's mailbox register reading zero.
-/
theorem C3_ipi_roundtrip (s : SmpState) (cpu action : Nat)
    (hc : cpu < 2) (ha : action &&& 3 = action) (hm : s.mbox cpu = 0) :
    ((jz4780_send_ipi_single_locked_jz s cpu action).map (fun s1 => s1.mbox cpu) =
        some (u32 (s.mbox cpu ||| action))) ∧
    (((jz4780_send_ipi_single_locked_jz s cpu action).bind
        (fun s1 => mbox_handler s1 cpu)).map
        (fun r => (r.1.mbox cpu,
          r.2.1.count (HandlerEvent.dispatch IpiDispatch.resched),
          r.2.1.count (HandlerEvent.dispatch IpiDispatch.callFunc),
          r.2.2)) =
      some (0,
        (if action &&& SMP_RESCHEDULE_YOURSELF ≠ 0 then 1 else 0),
        (if action &&& SMP_CALL_FUNCTION ≠ 0 then 1 else 0),
        true)) := by
  have ha3 : action ≤ 3 := by
    rw [← ha]; exact Nat.and_le_right
  interval_cases cpu <;> interval_cases action <;>
    simp [SmpState.mbox] at hm <;>
    simp [jz4780_send_ipi_single_locked_jz, mbox_handler, mbox_handler_dispatch,
      SmpState.mbox, hm, u32, SMP_RESCHEDULE_YOURSELF, SMP_CALL_FUNCTION]

/--
C3 witness: sending both action bits to core 1 through the
arch/mips/jz4740/smp.c primitive, starting from all-zero mailboxes, merges
them into mailbox 1, and delivery dispatches each handler exactly once and
leaves the mailbox reading zero.
-/
theorem C3_ipi_roundtrip_witness :
    (1 : Nat) < 2 ∧ (3 : Nat) &&& 3 = 3 ∧ (SmpState.mk 0 0 0 0 0).mbox 1 = 0 ∧
    (((jz4780_send_ipi_single_locked_jz ⟨0, 0, 0, 0, 0⟩ 1 3).map
        (fun s1 => s1.mbox 1) =
        some (u32 ((⟨0, 0, 0, 0, 0⟩ : SmpState).mbox 1 ||| 3))) ∧
     (((jz4780_send_ipi_single_locked_jz ⟨0, 0, 0, 0, 0⟩ 1 3).bind
        (fun s1 => mbox_handler s1 1)).map
        (fun r => (r.1.mbox 1,
          r.2.1.count (HandlerEvent.dispatch IpiDispatch.resched),
          r.2.1.count (HandlerEvent.dispatch IpiDispatch.callFunc),
          r.2.2)) =
      some (0,
        (if (3 : Nat) &&& SMP_RESCHEDULE_YOURSELF ≠ 0 then 1 else 0),
        (if (3 : Nat) &&& SMP_CALL_FUNCTION ≠ 0 then 1 else 0),
        true))) :=
  ⟨by decide, by decide, by decide,
    C3_ipi_roundtrip ⟨0, 0, 0, 0, 0⟩ 1 3 (by decide) (by decide) (by decide)⟩
